import Mathlib

/-!
# AppMobMeteo: forecast windowing, alert evaluation and favorites

A shallow embedding of the logic of `src/app.js`.

Conventions of the embedding.

* A JavaScript number read from the forecast payload is a rational (`ℚ`): every
  finite double is a rational, and the only operations the program applies to
  it (`>` against a constant, `Math.round`) are exact on its value.
* Reading an array past its end yields `undefined`; such a read is an `Option`
  whose `none` is `undefined`.  `Math.round(undefined)` is `NaN`, again `none`.
* A `for (let i = 0; i < n; i++)` loop is a left fold of its body over
  `List.range n`.
* Weather codes are integers (WMO codes); day indices and window lengths are natural
  numbers, as produced by `parseInt` on the `data-day` and `data-hours` attributes.
* The DOM is replaced by the values written into it.
-/

namespace AppMobMeteo

/-! ## Configuration (`CONFIG`, lines 2-12) -/

/-- The table `CONFIG.RAIN_CODES`. -/
def RAIN_CODES : List Int :=
  [51, 53, 55, 56, 57, 61, 63, 65, 66, 67, 71, 73, 75, 77, 80, 81, 82, 85, 86, 95, 96, 99]

/-- The constant `CONFIG.TEMP_THRESHOLD`. -/
def TEMP_THRESHOLD : ℚ := 10

/-- The constant `CONFIG.FORECAST_DAYS`. -/
def FORECAST_DAYS : Nat := 7

/-! ## Payload -/

/-- The `hourly` block of the payload: parallel arrays. -/
structure Hourly where
  time : List String
  temperature_2m : List ℚ
  weather_code : List Int

/-- The `current` block of the payload. -/
structure Current where
  temperature_2m : ℚ
  relative_humidity_2m : ℚ
  apparent_temperature : ℚ
  weather_code : Int
  wind_speed_10m : ℚ

/-- The `daily` block of the payload (only `time` is read by the code modelled here). -/
structure Daily where
  time : List String

/-- The forecast payload returned by the weather service. -/
structure Payload where
  current : Current
  hourly : Hourly
  daily : Daily

/-! ## JavaScript primitives -/

/-- The function `Math.round` on a finite number: nearest integer, ties towards `+∞`. -/
def jsRound (x : ℚ) : Int := ⌊x + 1 / 2⌋

/-- The function `Math.round` on a possibly `undefined` value (`none` is `NaN`). -/
def mathRound (x : Option ℚ) : Option Int := x.map jsRound

/-- The test `CONFIG.RAIN_CODES.includes(code)`; `undefined` is not included. -/
def rainIncludes (code : Option Int) : Bool :=
  match code with
  | some c => RAIN_CODES.contains c
  | none => false

/-- The test `temp > CONFIG.TEMP_THRESHOLD`; false on `undefined`. -/
def aboveThreshold (temp : Option ℚ) : Bool :=
  match temp with
  | some t => decide (TEMP_THRESHOLD < t)
  | none => false

/-- The operator `a || b` on a string-valued lookup: `undefined` and `''` are falsy. -/
def jsOr (v : Option String) (d : String) : String :=
  match v with
  | some s => if s = "" then d else s
  | none => d

/-! ## `getWeatherEmoji` (lines 505-538) -/

/-- The object literal `weatherEmojis`. -/
def weatherEmojis : List (Int × String) :=
  [(0, "☀️"), (1, "🌤️"), (2, "⛅"), (3, "☁️"), (45, "🌫️"), (48, "🌫️"),
   (51, "🌦️"), (53, "🌦️"), (55, "🌧️"), (56, "🌨️"), (57, "🌨️"),
   (61, "🌧️"), (63, "🌧️"), (65, "🌧️"), (66, "🌨️"), (67, "🌨️"),
   (71, "🌨️"), (73, "🌨️"), (75, "❄️"), (77, "🌨️"),
   (80, "🌦️"), (81, "🌧️"), (82, "⛈️"), (85, "🌨️"), (86, "❄️"),
   (95, "⛈️"), (96, "⛈️"), (99, "⛈️")]

/-- The function `getWeatherEmoji`; the argument `none` is `undefined`, which is no key. -/
def getWeatherEmoji (code : Option Int) : String :=
  match code with
  | some c => jsOr (weatherEmojis.lookup c) "🌤️"
  | none => jsOr none "🌤️"

/-! ## `checkWeatherAlerts` (lines 454-502) -/

/-- The four local variables of `checkWeatherAlerts`. -/
structure AlertState where
  rainAlert : Bool
  tempAlert : Bool
  rainHour : Option Nat
  highTemp : Option Int
deriving DecidableEq, Repr

/-- The initial values of the local variables (lines 458-461). -/
def AlertState.init : AlertState :=
  { rainAlert := false, tempAlert := false, rainHour := none, highTemp := none }

/-- The body of the scan loop (lines 465-481) at loop counter `i`. -/
def alertStep (hourly : Hourly) (dayStartHour : Nat) (s : AlertState) (i : Nat) : AlertState :=
  let hourIndex := dayStartHour + i
  if hourIndex < hourly.time.length then
    let code := hourly.weather_code[hourIndex]?
    let temp := hourly.temperature_2m[hourIndex]?
    let s1 : AlertState :=
      if !s.rainAlert && rainIncludes code then
        { s with rainAlert := true, rainHour := some (i + 1) }
      else s
    if !s1.tempAlert && aboveThreshold temp then
      { s1 with tempAlert := true, highTemp := mathRound temp }
    else s1
  else s

/-- The scan loop run for `n` iterations from `dayStartHour`. -/
def alertLoop (hourly : Hourly) (dayStartHour n : Nat) : AlertState :=
  (List.range n).foldl (alertStep hourly dayStartHour) AlertState.init

/-- The alert scan of `checkWeatherAlerts` (lines 455-482): four iterations from `dayIndex * 24`. -/
def scanAlerts (hourly : Hourly) (dayIndex : Nat) : AlertState :=
  alertLoop hourly (dayIndex * 24) 4

/-- A call `sendWeatherNotification(city, message, type)`. -/
structure NotificationCall where
  city : String
  message : String
  type : String
deriving DecidableEq, Repr

/-- How a template literal prints `rainHour` (`null` when unset). -/
def showRainHour (h : Option Nat) : String :=
  match h with
  | some k => toString k
  | none => "null"

/-- The test `rainHour > 1` of the message template (`null > 1` is false). -/
def rainHourPlural (h : Option Nat) : Bool :=
  match h with
  | some k => decide (1 < k)
  | none => false

/-- How a template literal prints `highTemp` (`null` when unset). -/
def showHighTemp (t : Option Int) : String :=
  match t with
  | some k => toString k
  | none => "null"

/-- The rain message of line 489. -/
def rainMessage (rainHour : Option Nat) : String :=
  "🌧️ Pluie prévue dans " ++ showRainHour rainHour ++ " heure"
    ++ (if rainHourPlural rainHour then "s" else "") ++ " !"

/-- The temperature message of line 497 (the threshold prints as `10`). -/
def tempMessage (highTemp : Option Int) : String :=
  "🌡️ Température supérieure à 10°C prévue (" ++ showHighTemp highTemp ++ "°C)"

/-- The function `checkWeatherAlerts`: the calls to `sendWeatherNotification` it makes, in order. -/
def checkWeatherAlerts (data : Payload) (cityName : String) (dayIndex : Nat) :
    List NotificationCall :=
  let s := scanAlerts data.hourly dayIndex
  if dayIndex = 0 then
    (if s.rainAlert then [{ city := cityName, message := rainMessage s.rainHour, type := "rain" }]
      else [])
    ++ (if s.tempAlert then
          [{ city := cityName, message := tempMessage s.highTemp, type := "temp" }]
        else [])
  else []

/-- A `Notification` object created by `sendWeatherNotification` (title, body, tag). -/
structure Notification where
  title : String
  body : String
  tag : String
deriving DecidableEq, Repr

/-- The function `sendWeatherNotification` (lines 152-171).  The flag `granted` is the truth of
`'Notification' in window && Notification.permission === 'granted'` (line 153), and
`constructorThrows` tells whether `new Notification(...)` throws in this browser; the
exception is caught and logged (lines 166-170), so no notification is created then. -/
def sendWeatherNotification (granted constructorThrows : Bool) (c : NotificationCall) :
    List Notification :=
  if !granted then []
  else if constructorThrows then []
  else [{ title := "Altus - " ++ c.city, body := c.message,
          tag := "weather-" ++ c.type ++ "-" ++ c.city }]

/-- The notifications created by one run of `checkWeatherAlerts`. -/
def dispatched (granted constructorThrows : Bool) (data : Payload) (cityName : String)
    (dayIndex : Nat) : List Notification :=
  (checkWeatherAlerts data cityName dayIndex).flatMap
    (sendWeatherNotification granted constructorThrows)

/-! ## `renderHourlyForecast` (lines 360-387) -/

/-- One rendered `hourly-item` (lines 376-382): its alert class, the `hourly.time` entry whose
local hour is shown, the emoji and the rounded temperature (`none` is `NaN`). -/
structure HourlyItem where
  alertClass : String
  time : String
  icon : String
  temp : Option Int
deriving DecidableEq, Repr

/-- The item pushed by the loop body at an in-range `hourIndex` (lines 366-382). -/
def hourlyItemAt (hourly : Hourly) (hourIndex : Nat) (h : hourIndex < hourly.time.length) :
    HourlyItem :=
  let time := hourly.time[hourIndex]
  let temp := hourly.temperature_2m[hourIndex]?
  let code := hourly.weather_code[hourIndex]?
  let isRain := rainIncludes code
  let isHighTemp := aboveThreshold temp
  let alertClass := if isRain then "rain-alert" else if isHighTemp then "temp-alert" else ""
  { alertClass := alertClass, time := time, icon := getWeatherEmoji code, temp := mathRound temp }

/-- The body of the loop of `renderHourlyForecast` at counter `i` (lines 364-383). -/
def hourlyStep (hourly : Hourly) (startHour : Nat) (hourlyItems : List HourlyItem) (i : Nat) :
    List HourlyItem :=
  let hourIndex := startHour + i
  if h : hourIndex < hourly.time.length then
    hourlyItems ++ [hourlyItemAt hourly hourIndex h]
  else hourlyItems

/-- The function `renderHourlyForecast`: the items joined into `hourlyList.innerHTML`. -/
def renderHourlyForecast (hourly : Hourly) (startHour hours : Nat) : List HourlyItem :=
  (List.range hours).foldl (hourlyStep hourly startHour) []

/-! ## `displayWeather` (lines 326-358) -/

/-- The five values written into the current-conditions elements: the temperature, the icon,
the wind speed (shown with ` km/h`), the humidity (shown with ` %`) and the feels-like
temperature (shown with `°C`).  A `none` is `NaN`. -/
structure Snapshot where
  temperature : Option Int
  weatherIcon : String
  wind : Int
  humidity : ℚ
  feelsLike : Option Int
deriving DecidableEq, Repr

/-- The branch on `dayIndex === 0` of `displayWeather` (lines 335-350). -/
def displaySnapshot (data : Payload) (dayIndex : Nat) : Snapshot :=
  let hourly := data.hourly
  let dayStartHour := dayIndex * 24
  if dayIndex = 0 then
    let current := data.current
    { temperature := mathRound (some current.temperature_2m),
      weatherIcon := getWeatherEmoji (some current.weather_code),
      wind := jsRound current.wind_speed_10m,
      humidity := current.relative_humidity_2m,
      feelsLike := mathRound (some current.apparent_temperature) }
  else
    let middayIndex := dayStartHour + 12
    { temperature := mathRound hourly.temperature_2m[middayIndex]?,
      weatherIcon := getWeatherEmoji hourly.weather_code[middayIndex]?,
      wind := jsRound data.current.wind_speed_10m,
      humidity := data.current.relative_humidity_2m,
      feelsLike := mathRound hourly.temperature_2m[middayIndex]? }

/-- Everything `displayWeather` writes: the snapshot, the city name and the hourly list. -/
structure Display where
  snapshot : Snapshot
  cityName : String
  hourlyList : List HourlyItem
deriving DecidableEq, Repr

/-- The function `displayWeather`, with the global `currentForecastHours` as a parameter.
An `Except.error` is a thrown exception; no statement of the function throws.  The local
`selectedDate` (line 331) is never used and is left out. -/
def displayWeather (data : Payload) (cityName : String) (dayIndex currentForecastHours : Nat) :
    Except String Display :=
  let hourly := data.hourly
  let dayStartHour := dayIndex * 24
  Except.ok
    { snapshot := displaySnapshot data dayIndex,
      cityName := cityName,
      hourlyList := renderHourlyForecast hourly dayStartHour currentForecastHours }

/-! ## Favorites (lines 577-667) -/

/-- A favorite entry, which is also the shape of `currentCity`. -/
structure City where
  name : String
  lat : ℚ
  lon : ℚ
deriving DecidableEq, Repr

/-- The global `favorites` and the list last written under `STORAGE_KEY_FAVORITES`
(`none` when the key was never written). -/
structure FavState where
  favorites : List City
  stored : Option (List City)
deriving DecidableEq, Repr

/-- The function `saveFavorites` (lines 585-588). -/
def saveFavorites (_st : FavState) (favList : List City) : FavState :=
  { favorites := favList, stored := some favList }

/-- The method `Array.prototype.findIndex`: the first index satisfying `p`, or `-1`. -/
def findIndex (l : List City) (p : City → Bool) : Int :=
  match l.findIdx? p with
  | some i => (i : Int)
  | none => -1

/-- The function `handleFavoriteToggle` (lines 650-667). -/
def handleFavoriteToggle (st : FavState) (currentCity : Option City) : FavState :=
  match currentCity with
  | none => st
  | some city =>
    let existingIndex := findIndex st.favorites (fun f => f.name == city.name)
    if existingIndex ≥ 0 then
      let newFavorites := st.favorites.filter (fun f => f.name != city.name)
      saveFavorites st newFavorites
    else
      let newFavorites := st.favorites ++ [city]
      saveFavorites st newFavorites

/-- The click handler of a `favorite-remove` button carrying `name` (lines 619-626). -/
def removeFavorite (st : FavState) (name : String) : FavState :=
  let newFavorites := st.favorites.filter (fun f => f.name != name)
  saveFavorites st newFavorites

/-- The names of a favorites list, in order. -/
def names (l : List City) : List String := l.map City.name

/-! ## Specification predicates for the alert scan -/

/-- Hour `idx` lies inside the hourly series and carries a rain code. -/
def rainAt (hourly : Hourly) (idx : Nat) : Prop :=
  idx < hourly.time.length ∧ ∃ c, hourly.weather_code[idx]? = some c ∧ c ∈ RAIN_CODES

/-- Hour `idx` lies inside the hourly series and its temperature `t` is above 10. -/
def hotAt (hourly : Hourly) (idx : Nat) (t : ℚ) : Prop :=
  idx < hourly.time.length ∧ hourly.temperature_2m[idx]? = some t ∧ 10 < t

/-- The sample series of the two alert scenarios: codes `[3,3,61,3]`, temperatures `[5,8,11,9]`. -/
def sampleHourly : Hourly :=
  { time := ["2024-01-01T00:00", "2024-01-01T01:00", "2024-01-01T02:00", "2024-01-01T03:00"],
    temperature_2m := [5, 8, 11, 9],
    weather_code := [3, 3, 61, 3] }

/-- The rain test of the loop body at counter `i`, in-range check included. -/
def rainHit (hourly : Hourly) (dayStartHour i : Nat) : Bool :=
  decide (dayStartHour + i < hourly.time.length) &&
    rainIncludes hourly.weather_code[dayStartHour + i]?

/-- The temperature test of the loop body at counter `i`, in-range check included. -/
def tempHit (hourly : Hourly) (dayStartHour i : Nat) : Bool :=
  decide (dayStartHour + i < hourly.time.length) &&
    aboveThreshold hourly.temperature_2m[dayStartHour + i]?

/-- A series whose only hour is at 10.4 degrees. -/
def warmHourly : Hourly :=
  { time := ["2024-01-01T00:00"], temperature_2m := [52 / 5], weather_code := [3] }

/-- A payload whose hourly series has 61 entries; the entry at index 60 is 17.6 degrees with
code 61. -/
def middayPayload : Payload :=
  { current := { temperature_2m := 52 / 5, relative_humidity_2m := 80, apparent_temperature := 9,
                 weather_code := 3, wind_speed_10m := 25 / 2 },
    hourly := { time := List.replicate 61 "2024-01-03T12:00",
                temperature_2m := List.replicate 60 0 ++ [88 / 5],
                weather_code := List.replicate 60 0 ++ [61] },
    daily := { time := [] } }

/-- A payload whose hourly series stops after four hours. -/
def shortPayload : Payload :=
  { current := { temperature_2m := 52 / 5, relative_humidity_2m := 80, apparent_temperature := 9,
                 weather_code := 3, wind_speed_10m := 25 / 2 },
    hourly := sampleHourly,
    daily := { time := [] } }

/-- A favorites list with two distinct names. -/
def sampleFavorites : FavState :=
  { favorites := [{ name := "Paris", lat := 1221 / 25, lon := 47 / 20 },
                  { name := "Lyon", lat := 183 / 4, lon := 121 / 25 }],
    stored := none }

/-! ## `renderDaySelector` (lines 390-419) -/

/-- One button of the day selector (lines 402-407): its `data-day` value, the `daily.time`
entry its label and date are computed from, and whether it carries the class `active`. -/
structure DayButton where
  day : Nat
  time : Option String
  isActive : Bool
deriving DecidableEq, Repr

/-- The body of the loop of `renderDaySelector` at counter `i` (lines 397-407). -/
def dayButtonStep (data : Payload) (currentDayIndex : Nat) (dayButtons : List DayButton)
    (i : Nat) : List DayButton :=
  dayButtons ++ [{ day := i, time := data.daily.time[i]?, isActive := decide (i = currentDayIndex) }]

/-- The function `renderDaySelector`, with the global `currentDayIndex` as a parameter: the
buttons joined into `daySelector.innerHTML`. -/
def renderDaySelector (data : Payload) (currentDayIndex : Nat) : List DayButton :=
  (List.range FORECAST_DAYS).foldl (dayButtonStep data currentDayIndex) []

/-- The day indices the click handlers (lines 413-418) pass to `changeDaySelection`: the
`data-day` value of each button. -/
def offeredDays (data : Payload) (currentDayIndex : Nat) : List Nat :=
  (renderDaySelector data currentDayIndex).map DayButton.day

/-- A payload of the fixed shape: seven days of 24 hours in each hourly array. -/
def weekPayload : Payload :=
  { current := { temperature_2m := 52 / 5, relative_humidity_2m := 80, apparent_temperature := 9,
                 weather_code := 3, wind_speed_10m := 25 / 2 },
    hourly := { time := List.replicate 168 "2024-01-01T00:00",
                temperature_2m := List.replicate 168 (15 / 2),
                weather_code := List.replicate 168 3 },
    daily := { time := List.replicate 7 "2024-01-01" } }

/-! # Theorems -/

/-! ## A first-hit loop lemma -/

/-- A fold over `0..n-1` whose flag is raised at the first `i` with `p i`, recording `v i`
at that moment and never again, ends with the flag telling whether some `i < n` has `p i`
and with the value of the least such `i`. -/
theorem foldl_first_hit {σ β : Type} (f : σ → Nat → σ) (flag : σ → Bool) (val : σ → Option β)
    (p : Nat → Bool) (v : Nat → Option β)
    (hflag : ∀ s i, flag (f s i) = (flag s || p i))
    (hval : ∀ s i, val (f s i) = if (!flag s && p i) = true then v i else val s)
    (s0 : σ) (h0 : flag s0 = false) (hv0 : val s0 = none) (n : Nat) :
    (flag ((List.range n).foldl f s0) = false →
        val ((List.range n).foldl f s0) = none ∧ ∀ i, i < n → p i = false) ∧
    (flag ((List.range n).foldl f s0) = true →
        ∃ i, i < n ∧ p i = true ∧ val ((List.range n).foldl f s0) = v i ∧
          ∀ j, j < i → p j = false) := by
  induction n with
  | zero => simp [h0, hv0]
  | succ n ih =>
    rw [List.range_succ, List.foldl_append]
    simp only [List.foldl_cons, List.foldl_nil]
    rw [hflag, hval]
    obtain ⟨ihf, iht⟩ := ih
    cases hfl : flag ((List.range n).foldl f s0) with
    | true =>
      obtain ⟨i, hi, hpi, hvi, hmin⟩ := iht hfl
      simp only [Bool.true_or, Bool.not_true, Bool.false_and, Bool.false_eq_true, if_false]
      refine ⟨by simp, fun _ => ⟨i, by omega, hpi, hvi, hmin⟩⟩
    | false =>
      obtain ⟨hnone, hall⟩ := ihf hfl
      simp only [Bool.false_or, Bool.not_false, Bool.true_and]
      cases hpn : p n with
      | true =>
        simp only [if_true]
        refine ⟨by simp, fun _ => ⟨n, by omega, hpn, rfl, hall⟩⟩
      | false =>
        simp only [Bool.false_eq_true, if_false]
        refine ⟨fun _ => ⟨hnone, ?_⟩, by simp⟩
        intro i hi
        rcases Nat.lt_succ_iff_lt_or_eq.mp hi with h | h
        · exact hall i h
        · rw [h]; exact hpn

theorem alertStep_rainAlert (hourly : Hourly) (d : Nat) (s : AlertState) (i : Nat) :
    (alertStep hourly d s i).rainAlert = (s.rainAlert || rainHit hourly d i) := by
  unfold alertStep rainHit
  by_cases h : d + i < hourly.time.length <;>
    cases h1 : s.rainAlert <;> cases h2 : rainIncludes hourly.weather_code[d + i]? <;>
    cases h3 : s.tempAlert <;> cases h4 : aboveThreshold hourly.temperature_2m[d + i]? <;>
    simp [h, h1, h2, h3, h4]

theorem alertStep_rainHour (hourly : Hourly) (d : Nat) (s : AlertState) (i : Nat) :
    (alertStep hourly d s i).rainHour =
      if (!s.rainAlert && rainHit hourly d i) = true then some (i + 1) else s.rainHour := by
  unfold alertStep rainHit
  by_cases h : d + i < hourly.time.length <;>
    cases h1 : s.rainAlert <;> cases h2 : rainIncludes hourly.weather_code[d + i]? <;>
    cases h3 : s.tempAlert <;> cases h4 : aboveThreshold hourly.temperature_2m[d + i]? <;>
    simp [h, h1, h2, h3, h4]

theorem alertStep_tempAlert (hourly : Hourly) (d : Nat) (s : AlertState) (i : Nat) :
    (alertStep hourly d s i).tempAlert = (s.tempAlert || tempHit hourly d i) := by
  unfold alertStep tempHit
  by_cases h : d + i < hourly.time.length <;>
    cases h1 : s.rainAlert <;> cases h2 : rainIncludes hourly.weather_code[d + i]? <;>
    cases h3 : s.tempAlert <;> cases h4 : aboveThreshold hourly.temperature_2m[d + i]? <;>
    simp [h, h1, h2, h3, h4]

theorem alertStep_highTemp (hourly : Hourly) (d : Nat) (s : AlertState) (i : Nat) :
    (alertStep hourly d s i).highTemp =
      if (!s.tempAlert && tempHit hourly d i) = true
      then mathRound hourly.temperature_2m[d + i]? else s.highTemp := by
  unfold alertStep tempHit
  by_cases h : d + i < hourly.time.length <;>
    cases h1 : s.rainAlert <;> cases h2 : rainIncludes hourly.weather_code[d + i]? <;>
    cases h3 : s.tempAlert <;> cases h4 : aboveThreshold hourly.temperature_2m[d + i]? <;>
    simp [h, h1, h2, h3, h4]

theorem rainHit_iff (hourly : Hourly) (d i : Nat) :
    rainHit hourly d i = true ↔ rainAt hourly (d + i) := by
  unfold rainHit rainAt rainIncludes
  cases h : hourly.weather_code[d + i]? with
  | none => simp
  | some c => simp

theorem rainHit_false_iff (hourly : Hourly) (d i : Nat) :
    rainHit hourly d i = false ↔ ¬ rainAt hourly (d + i) := by
  rw [← rainHit_iff]; simp

theorem tempHit_iff (hourly : Hourly) (d i : Nat) :
    tempHit hourly d i = true ↔ ∃ t, hotAt hourly (d + i) t := by
  unfold tempHit hotAt aboveThreshold TEMP_THRESHOLD
  cases h : hourly.temperature_2m[d + i]? with
  | none => simp
  | some c => simp

theorem tempHit_false_iff (hourly : Hourly) (d i : Nat) :
    tempHit hourly d i = false ↔ ∀ t, ¬ hotAt hourly (d + i) t := by
  rw [← not_exists, ← tempHit_iff]; simp

/-- The rain half of the scan after `n` iterations. -/
theorem alertLoop_rain (hourly : Hourly) (d n : Nat) :
    ((alertLoop hourly d n).rainAlert = false →
        (alertLoop hourly d n).rainHour = none ∧ ∀ i, i < n → ¬ rainAt hourly (d + i)) ∧
    ((alertLoop hourly d n).rainAlert = true →
        ∃ i, i < n ∧ rainAt hourly (d + i) ∧ (alertLoop hourly d n).rainHour = some (i + 1) ∧
          ∀ j, j < i → ¬ rainAt hourly (d + j)) := by
  have h := foldl_first_hit (alertStep hourly d) AlertState.rainAlert AlertState.rainHour
    (rainHit hourly d) (fun i => some (i + 1)) (alertStep_rainAlert hourly d)
    (alertStep_rainHour hourly d) AlertState.init rfl rfl n
  simp only [rainHit_iff, rainHit_false_iff] at h
  exact h

/-- The temperature half of the scan after `n` iterations. -/
theorem alertLoop_temp (hourly : Hourly) (d n : Nat) :
    ((alertLoop hourly d n).tempAlert = false →
        (alertLoop hourly d n).highTemp = none ∧ ∀ i, i < n → ∀ t, ¬ hotAt hourly (d + i) t) ∧
    ((alertLoop hourly d n).tempAlert = true →
        ∃ i, i < n ∧ (∃ t, hotAt hourly (d + i) t) ∧
          (alertLoop hourly d n).highTemp = mathRound hourly.temperature_2m[d + i]? ∧
          ∀ j, j < i → ∀ t, ¬ hotAt hourly (d + j) t) := by
  have h := foldl_first_hit (alertStep hourly d) AlertState.tempAlert AlertState.highTemp
    (tempHit hourly d) (fun i => mathRound hourly.temperature_2m[d + i]?)
    (alertStep_tempAlert hourly d) (alertStep_highTemp hourly d) AlertState.init rfl rfl n
  simp only [tempHit_iff, tempHit_false_iff] at h
  exact h

theorem jsRound_bounds (t : ℚ) (k : Int) :
    k = jsRound t ↔ ((k : ℚ) ≤ t + 1 / 2 ∧ t + 1 / 2 < (k : ℚ) + 1) := by
  unfold jsRound
  rw [eq_comm, Int.floor_eq_iff]

/-! ## C1, C2: the alert scan -/

/-- C1: the scan of `checkWeatherAlerts` raises `rainAlert` exactly when one of the offsets
`0..3` from `dayIndex * 24` is inside the series and carries a rain code; `rainHour` is then
the least such offset plus one, and it is `null` exactly when there is no such offset.  On
the codes `[3,3,61,3]` for today the scan gives `rainAlert = true`, `rainHour = 3`. -/
theorem checkWeatherAlerts_rain_first_hit (hourly : Hourly) (dayIndex : Nat) :
    ((scanAlerts hourly dayIndex).rainAlert = true ↔
        ∃ i, i < 4 ∧ rainAt hourly (dayIndex * 24 + i)) ∧
    (∀ k, (scanAlerts hourly dayIndex).rainHour = some k ↔
        ∃ i, i < 4 ∧ rainAt hourly (dayIndex * 24 + i) ∧ k = i + 1 ∧
          ∀ j, j < i → ¬ rainAt hourly (dayIndex * 24 + j)) ∧
    ((scanAlerts hourly dayIndex).rainHour = none ↔
        ¬ ∃ i, i < 4 ∧ rainAt hourly (dayIndex * 24 + i)) ∧
    (scanAlerts sampleHourly 0).rainAlert = true ∧
    (scanAlerts sampleHourly 0).rainHour = some 3 := by
  obtain ⟨hf, ht⟩ := alertLoop_rain hourly (dayIndex * 24) 4
  unfold scanAlerts
  refine ⟨?_, ?_, ?_, by decide, by decide⟩
  · constructor
    · intro h
      obtain ⟨i, hi, hr, -, -⟩ := ht h
      exact ⟨i, hi, hr⟩
    · rintro ⟨i, hi, hr⟩
      cases hb : (alertLoop hourly (dayIndex * 24) 4).rainAlert with
      | true => rfl
      | false => exact absurd hr ((hf hb).2 i hi)
  · intro k
    constructor
    · intro h
      cases hb : (alertLoop hourly (dayIndex * 24) 4).rainAlert with
      | false => rw [(hf hb).1] at h; cases h
      | true =>
        obtain ⟨i, hi, hr, hv, hmin⟩ := ht hb
        rw [hv] at h
        exact ⟨i, hi, hr, (Option.some.inj h).symm, hmin⟩
    · rintro ⟨i, hi, hr, rfl, hmin⟩
      cases hb : (alertLoop hourly (dayIndex * 24) 4).rainAlert with
      | false => exact absurd hr ((hf hb).2 i hi)
      | true =>
        obtain ⟨i', hi', hr', hv, hmin'⟩ := ht hb
        have : i = i' := by
          rcases Nat.lt_trichotomy i i' with h | h | h
          · exact absurd hr (hmin' i h)
          · exact h
          · exact absurd hr' (hmin i' h)
        rw [hv, this]
  · constructor
    · intro h
      rintro ⟨i, hi, hr⟩
      cases hb : (alertLoop hourly (dayIndex * 24) 4).rainAlert with
      | false => exact absurd hr ((hf hb).2 i hi)
      | true =>
        obtain ⟨i', -, -, hv, -⟩ := ht hb
        rw [hv] at h; cases h
    · intro h
      cases hb : (alertLoop hourly (dayIndex * 24) 4).rainAlert with
      | false => exact (hf hb).1
      | true =>
        obtain ⟨i', hi', hr', -, -⟩ := ht hb
        exact absurd ⟨i', hi', hr'⟩ h

/-- C2 (amended): `tempAlert` is raised exactly when one of the offsets `0..3` is inside the
series with a temperature strictly above 10; `highTemp` is then that temperature at the least
such offset rounded to the nearest integer (ties upwards), never overwritten by a later hour,
and it is `null` exactly when there is no such offset.  On `[5, 8, 11, 9]` the scan gives
`tempAlert = true`, `highTemp = 11`. -/
theorem checkWeatherAlerts_temp_first_hit_rounded (hourly : Hourly) (dayIndex : Nat) :
    ((scanAlerts hourly dayIndex).tempAlert = true ↔
        ∃ i t, i < 4 ∧ hotAt hourly (dayIndex * 24 + i) t) ∧
    (∀ k : Int, (scanAlerts hourly dayIndex).highTemp = some k ↔
        ∃ i t, i < 4 ∧ hotAt hourly (dayIndex * 24 + i) t ∧
          ((k : ℚ) ≤ t + 1 / 2 ∧ t + 1 / 2 < (k : ℚ) + 1) ∧
          ∀ j, j < i → ∀ u, ¬ hotAt hourly (dayIndex * 24 + j) u) ∧
    ((scanAlerts hourly dayIndex).highTemp = none ↔
        ¬ ∃ i t, i < 4 ∧ hotAt hourly (dayIndex * 24 + i) t) ∧
    (scanAlerts sampleHourly 0).tempAlert = true ∧
    (scanAlerts sampleHourly 0).highTemp = some 11 := by
  obtain ⟨hf, ht⟩ := alertLoop_temp hourly (dayIndex * 24) 4
  unfold scanAlerts
  have key : ∀ i t, hotAt hourly (dayIndex * 24 + i) t →
      mathRound hourly.temperature_2m[dayIndex * 24 + i]? = some (jsRound t) := by
    intro i t h
    rw [h.2.1]; rfl
  refine ⟨?_, ?_, ?_, ?_, ?_⟩
  · constructor
    · intro h
      obtain ⟨i, hi, ⟨t, hr⟩, -, -⟩ := ht h
      exact ⟨i, t, hi, hr⟩
    · rintro ⟨i, t, hi, hr⟩
      cases hb : (alertLoop hourly (dayIndex * 24) 4).tempAlert with
      | true => rfl
      | false => exact absurd hr ((hf hb).2 i hi t)
  · intro k
    constructor
    · intro h
      cases hb : (alertLoop hourly (dayIndex * 24) 4).tempAlert with
      | false => rw [(hf hb).1] at h; cases h
      | true =>
        obtain ⟨i, hi, ⟨t, hr⟩, hv, hmin⟩ := ht hb
        rw [hv, key i t hr] at h
        exact ⟨i, t, hi, hr, (jsRound_bounds t k).mp (Option.some.inj h).symm, hmin⟩
    · rintro ⟨i, t, hi, hr, hk, hmin⟩
      cases hb : (alertLoop hourly (dayIndex * 24) 4).tempAlert with
      | false => exact absurd hr ((hf hb).2 i hi t)
      | true =>
        obtain ⟨i', hi', ⟨t', hr'⟩, hv, hmin'⟩ := ht hb
        have : i = i' := by
          rcases Nat.lt_trichotomy i i' with h | h | h
          · exact absurd hr (hmin' i h t)
          · exact h
          · exact absurd hr' (hmin i' h t')
        subst this
        rw [hv, key i t hr, (jsRound_bounds t k).mpr hk]
  · constructor
    · intro h
      rintro ⟨i, t, hi, hr⟩
      cases hb : (alertLoop hourly (dayIndex * 24) 4).tempAlert with
      | false => exact absurd hr ((hf hb).2 i hi t)
      | true =>
        obtain ⟨i', -, ⟨t', hr'⟩, hv, -⟩ := ht hb
        rw [hv, key i' t' hr'] at h; cases h
    · intro h
      cases hb : (alertLoop hourly (dayIndex * 24) 4).tempAlert with
      | false => exact (hf hb).1
      | true =>
        obtain ⟨i', hi', ⟨t', hr'⟩, -, -⟩ := ht hb
        exact absurd ⟨i', t', hi', hr'⟩ h
  · decide!
  · decide!

/-- C2 (counterexample): with a first hour at 10.4 degrees the alert is raised at offset 0,
yet `highTemp` is 10, which is not the temperature of that hour. -/
theorem checkWeatherAlerts_highTemp_not_raw :
    (scanAlerts warmHourly 0).tempAlert = true ∧
    hotAt warmHourly (0 * 24 + 0) (52 / 5) ∧
    (scanAlerts warmHourly 0).highTemp = some 10 ∧
    (scanAlerts warmHourly 0).highTemp.map (fun k : Int => (k : ℚ)) ≠ some (52 / 5) := by
  unfold hotAt
  decide!


/-! ## C3, C4: the hourly window -/

theorem renderHourlyForecast_succ (hourly : Hourly) (start n : Nat) :
    renderHourlyForecast hourly start (n + 1) =
      hourlyStep hourly start (renderHourlyForecast hourly start n) n := by
  unfold renderHourlyForecast
  rw [List.range_succ, List.foldl_append]
  rfl

/-- The loop of `renderHourlyForecast` after `n` iterations: its length and its entries. -/
theorem renderHourlyForecast_spec (hourly : Hourly) (start n : Nat) :
    (renderHourlyForecast hourly start n).length = min n (hourly.time.length - start) ∧
    ∀ k, k < (renderHourlyForecast hourly start n).length →
      ∃ hb : start + k < hourly.time.length,
        (renderHourlyForecast hourly start n)[k]? = some (hourlyItemAt hourly (start + k) hb) := by
  induction n with
  | zero => simp [renderHourlyForecast]
  | succ n ih =>
    obtain ⟨hlen, hget⟩ := ih
    rw [renderHourlyForecast_succ]
    unfold hourlyStep
    by_cases hlt : start + n < hourly.time.length
    · simp only [hlt, dite_true, List.length_append, List.length_singleton]
      have hn : (renderHourlyForecast hourly start n).length = n := by omega
      refine ⟨by omega, ?_⟩
      intro k hk
      by_cases hkn : k < n
      · obtain ⟨hb, hv⟩ := hget k (by omega)
        exact ⟨hb, by rw [List.getElem?_append_left (by omega)]; exact hv⟩
      · have hkeq : k = n := by omega
        subst hkeq
        refine ⟨hlt, ?_⟩
        rw [List.getElem?_append_right (by omega)]
        simp [hn]
    · simp only [hlt, dite_false]
      refine ⟨by omega, ?_⟩
      intro k hk
      exact hget k hk

theorem rainIncludes_iff (code : Option Int) :
    rainIncludes code = true ↔
      ∃ c, code = some c ∧
        c ∈ ([51, 53, 55, 56, 57, 61, 63, 65, 66, 67, 71, 73, 75, 77, 80, 81, 82, 85, 86,
              95, 96, 99] : List Int) := by
  cases code with
  | none => simp [rainIncludes]
  | some c => simp [rainIncludes, RAIN_CODES]

theorem aboveThreshold_iff (temp : Option ℚ) :
    aboveThreshold temp = true ↔ ∃ t, temp = some t ∧ 10 < t := by
  cases temp with
  | none => simp [aboveThreshold]
  | some c => simp [aboveThreshold, TEMP_THRESHOLD]

/-- C3: `renderHourlyForecast(hourly, start, count)` produces `min(count, len - start)` items
when `start < len` and none otherwise, and its `k`-th item is the one rendered from the
absolute index `start + k`, which is inside the series; nothing is padded. -/
theorem renderHourlyForecast_window (hourly : Hourly) (start count : Nat) :
    (renderHourlyForecast hourly start count).length =
      (if start < hourly.time.length then min count (hourly.time.length - start) else 0) ∧
    (¬ start < hourly.time.length → renderHourlyForecast hourly start count = []) ∧
    ∀ k, k < (renderHourlyForecast hourly start count).length →
      ∃ hb : start + k < hourly.time.length,
        (renderHourlyForecast hourly start count)[k]? =
          some (hourlyItemAt hourly (start + k) hb) ∧
        (hourlyItemAt hourly (start + k) hb).time = hourly.time[start + k] := by
  obtain ⟨hlen, hget⟩ := renderHourlyForecast_spec hourly start count
  refine ⟨?_, ?_, ?_⟩
  · rw [hlen]
    split <;> omega
  · intro h
    apply List.eq_nil_of_length_eq_zero
    omega
  · intro k hk
    obtain ⟨hb, hv⟩ := hget k hk
    exact ⟨hb, hv, rfl⟩

/-- C4: the class of the `k`-th rendered slot is `rain-alert` exactly when the weather code of
hour `startHour + k` is in the rain set, whatever the temperature; it is `temp-alert` exactly
when the code is not in the set and the temperature is strictly above 10; it is empty exactly
when neither holds. -/
theorem renderHourlyForecast_alertClass (hourly : Hourly) (startHour hours k : Nat)
    (item : HourlyItem)
    (h : (renderHourlyForecast hourly startHour hours)[k]? = some item) :
    (item.alertClass = "rain-alert" ↔
      ∃ c, hourly.weather_code[startHour + k]? = some c ∧
        c ∈ ([51, 53, 55, 56, 57, 61, 63, 65, 66, 67, 71, 73, 75, 77, 80, 81, 82, 85, 86,
              95, 96, 99] : List Int)) ∧
    (item.alertClass = "temp-alert" ↔
      (¬ ∃ c, hourly.weather_code[startHour + k]? = some c ∧
        c ∈ ([51, 53, 55, 56, 57, 61, 63, 65, 66, 67, 71, 73, 75, 77, 80, 81, 82, 85, 86,
              95, 96, 99] : List Int)) ∧
      ∃ t, hourly.temperature_2m[startHour + k]? = some t ∧ 10 < t) ∧
    (item.alertClass = "" ↔
      (¬ ∃ c, hourly.weather_code[startHour + k]? = some c ∧
        c ∈ ([51, 53, 55, 56, 57, 61, 63, 65, 66, 67, 71, 73, 75, 77, 80, 81, 82, 85, 86,
              95, 96, 99] : List Int)) ∧
      ¬ ∃ t, hourly.temperature_2m[startHour + k]? = some t ∧ 10 < t) := by
  have hk : k < (renderHourlyForecast hourly startHour hours).length := by
    rcases Nat.lt_or_ge k (renderHourlyForecast hourly startHour hours).length with h1 | h1
    · exact h1
    · rw [List.getElem?_eq_none h1] at h; cases h
  obtain ⟨hb, hv⟩ := (renderHourlyForecast_spec hourly startHour hours).2 k hk
  rw [hv] at h
  have hitem := (Option.some.inj h).symm
  subst hitem
  rw [← rainIncludes_iff, ← aboveThreshold_iff]
  unfold hourlyItemAt
  cases h1 : rainIncludes hourly.weather_code[startHour + k]? <;>
    cases h2 : aboveThreshold hourly.temperature_2m[startHour + k]? <;>
    simp [h1, h2]

/-- C4 (witness): the third slot of the sample series has a rain code and 11 degrees. -/
theorem renderHourlyForecast_alertClass_witness :
    (renderHourlyForecast sampleHourly 0 4)[2]? =
      some { alertClass := "rain-alert", time := "2024-01-01T02:00", icon := "🌧️",
             temp := some 11 } ∧
    (("rain-alert" = "rain-alert" ↔
      ∃ c, sampleHourly.weather_code[0 + 2]? = some c ∧
        c ∈ ([51, 53, 55, 56, 57, 61, 63, 65, 66, 67, 71, 73, 75, 77, 80, 81, 82, 85, 86,
              95, 96, 99] : List Int)) ∧
    ("rain-alert" = "temp-alert" ↔
      (¬ ∃ c, sampleHourly.weather_code[0 + 2]? = some c ∧
        c ∈ ([51, 53, 55, 56, 57, 61, 63, 65, 66, 67, 71, 73, 75, 77, 80, 81, 82, 85, 86,
              95, 96, 99] : List Int)) ∧
      ∃ t, sampleHourly.temperature_2m[0 + 2]? = some t ∧ 10 < t) ∧
    ("rain-alert" = "" ↔
      (¬ ∃ c, sampleHourly.weather_code[0 + 2]? = some c ∧
        c ∈ ([51, 53, 55, 56, 57, 61, 63, 65, 66, 67, 71, 73, 75, 77, 80, 81, 82, 85, 86,
              95, 96, 99] : List Int)) ∧
      ¬ ∃ t, sampleHourly.temperature_2m[0 + 2]? = some t ∧ 10 < t)) :=
  ⟨by decide!, renderHourlyForecast_alertClass sampleHourly 0 4 2
    { alertClass := "rain-alert", time := "2024-01-01T02:00", icon := "🌧️", temp := some 11 }
    (by decide!)⟩

/-! ## C5, C6, C7: the day snapshot -/

theorem jsRound_spec (t : ℚ) : ((jsRound t : Int) : ℚ) ≤ t + 1 / 2 ∧ t + 1 / 2 < (jsRound t : ℚ) + 1 :=
  (jsRound_bounds t (jsRound t)).mp rfl

/-- C5: for a day index other than 0 (in particular 1..6) whose midday entry exists, with
temperature `t` and code `c` at index `dayIndex * 24 + 12`, `displayWeather` shows `t` rounded
as temperature and as feels-like, the emoji of `c` as icon, and the wind speed (rounded) and
humidity of `payload.current`; any payload with the same `current` and the same midday entry
gives the same snapshot, so no other hourly index matters. -/
theorem displayWeather_future_day (data : Payload) (cityName : String) (dayIndex hours : Nat)
    (t : ℚ) (c : Int) (hd : 0 < dayIndex)
    (ht : data.hourly.temperature_2m[dayIndex * 24 + 12]? = some t)
    (hc : data.hourly.weather_code[dayIndex * 24 + 12]? = some c) :
    ∃ disp, displayWeather data cityName dayIndex hours = Except.ok disp ∧
      (∃ k : Int, ((k : ℚ) ≤ t + 1 / 2 ∧ t + 1 / 2 < (k : ℚ) + 1) ∧
        disp.snapshot.temperature = some k ∧ disp.snapshot.feelsLike = some k) ∧
      disp.snapshot.weatherIcon = getWeatherEmoji (some c) ∧
      (∃ w : Int, ((w : ℚ) ≤ data.current.wind_speed_10m + 1 / 2 ∧
          data.current.wind_speed_10m + 1 / 2 < (w : ℚ) + 1) ∧ disp.snapshot.wind = w) ∧
      disp.snapshot.humidity = data.current.relative_humidity_2m ∧
      ∀ (other : Payload) (city2 : String) (hours2 : Nat),
        other.current = data.current →
        other.hourly.temperature_2m[dayIndex * 24 + 12]? = some t →
        other.hourly.weather_code[dayIndex * 24 + 12]? = some c →
        ∃ disp2, displayWeather other city2 dayIndex hours2 = Except.ok disp2 ∧
          disp2.snapshot = disp.snapshot := by
  have hne : dayIndex ≠ 0 := by omega
  refine ⟨_, rfl, ?_, ?_, ?_, ?_, ?_⟩
  · refine ⟨jsRound t, jsRound_spec t, ?_, ?_⟩ <;>
      simp [displaySnapshot, hne, ht, mathRound]
  · simp [displaySnapshot, hne, hc]
  · exact ⟨jsRound data.current.wind_speed_10m, jsRound_spec _, by simp [displaySnapshot, hne]⟩
  · simp [displaySnapshot, hne]
  · intro other city2 hours2 hcur ht2 hc2
    refine ⟨_, rfl, ?_⟩
    simp [displaySnapshot, hne, ht, hc, ht2, hc2, hcur]

/-- C5 (witness): day 2 reads `hourly.temperature_2m[60]`. -/
theorem displayWeather_future_day_witness :
    (0 < 2 ∧ middayPayload.hourly.temperature_2m[60]? = some (88 / 5) ∧
      middayPayload.hourly.weather_code[60]? = some 61) ∧
    ∃ disp, displayWeather middayPayload "Paris" 2 4 = Except.ok disp ∧
      (∃ k : Int, ((k : ℚ) ≤ 88 / 5 + 1 / 2 ∧ (88 / 5 : ℚ) + 1 / 2 < (k : ℚ) + 1) ∧
        disp.snapshot.temperature = some k ∧ disp.snapshot.feelsLike = some k) ∧
      disp.snapshot.weatherIcon = getWeatherEmoji (some 61) ∧
      (∃ w : Int, ((w : ℚ) ≤ middayPayload.current.wind_speed_10m + 1 / 2 ∧
          middayPayload.current.wind_speed_10m + 1 / 2 < (w : ℚ) + 1) ∧
          disp.snapshot.wind = w) ∧
      disp.snapshot.humidity = middayPayload.current.relative_humidity_2m ∧
      ∀ (other : Payload) (city2 : String) (hours2 : Nat),
        other.current = middayPayload.current →
        other.hourly.temperature_2m[2 * 24 + 12]? = some (88 / 5) →
        other.hourly.weather_code[2 * 24 + 12]? = some 61 →
        ∃ disp2, displayWeather other city2 2 hours2 = Except.ok disp2 ∧
          disp2.snapshot = disp.snapshot :=
  ⟨⟨by decide, by decide!, by decide!⟩,
    displayWeather_future_day middayPayload "Paris" 2 4 (88 / 5) 61 (by decide) (by decide!)
      (by decide!)⟩

/-- C6: for day 0 `displayWeather` shows the fields of `payload.current`: the temperature,
the wind speed and the apparent temperature each rounded to the nearest integer, the
humidity unchanged and the emoji of `current.weather_code`; the snapshot is the same for
every hourly and daily series. -/
theorem displayWeather_today (data : Payload) (cityName : String) (hours : Nat) :
    ∃ disp, displayWeather data cityName 0 hours = Except.ok disp ∧
      (∃ k : Int, ((k : ℚ) ≤ data.current.temperature_2m + 1 / 2 ∧
          data.current.temperature_2m + 1 / 2 < (k : ℚ) + 1) ∧
          disp.snapshot.temperature = some k) ∧
      disp.snapshot.weatherIcon = getWeatherEmoji (some data.current.weather_code) ∧
      (∃ w : Int, ((w : ℚ) ≤ data.current.wind_speed_10m + 1 / 2 ∧
          data.current.wind_speed_10m + 1 / 2 < (w : ℚ) + 1) ∧ disp.snapshot.wind = w) ∧
      disp.snapshot.humidity = data.current.relative_humidity_2m ∧
      (∃ f : Int, ((f : ℚ) ≤ data.current.apparent_temperature + 1 / 2 ∧
          data.current.apparent_temperature + 1 / 2 < (f : ℚ) + 1) ∧
          disp.snapshot.feelsLike = some f) ∧
      ∀ (hourly2 : Hourly) (daily2 : Daily) (city2 : String) (hours2 : Nat),
        ∃ disp2, displayWeather { current := data.current, hourly := hourly2, daily := daily2 }
            city2 0 hours2 = Except.ok disp2 ∧
          disp2.snapshot = disp.snapshot := by
  refine ⟨_, rfl, ?_, ?_, ?_, ?_, ?_, ?_⟩
  · exact ⟨jsRound data.current.temperature_2m, jsRound_spec _, by simp [displaySnapshot, mathRound]⟩
  · simp [displaySnapshot]
  · exact ⟨jsRound data.current.wind_speed_10m, jsRound_spec _, by simp [displaySnapshot]⟩
  · simp [displaySnapshot]
  · exact ⟨jsRound data.current.apparent_temperature, jsRound_spec _,
      by simp [displaySnapshot, mathRound]⟩
  · intro hourly2 daily2 city2 hours2
    exact ⟨_, rfl, by simp [displaySnapshot]⟩

/-- C7 (the code at a failing input): with a four-hour series and day 1 the midday index 36
is not a valid index of the hourly series, and `displayWeather` signals nothing: it returns
normally with a snapshot built from the out-of-bounds read, whose temperature and feels-like
are `NaN` and whose icon is the default emoji.  The midday read of lines 344-349 lacks the
test `hourIndex < hourly.time.length` that both loops make (lines 365 and 466); the guarded
hourly list of the same call is empty. -/
theorem displayWeather_short_series_no_error :
    ¬ (1 * 24 + 12 < shortPayload.hourly.time.length) ∧
    displayWeather shortPayload "Paris" 1 4 =
      Except.ok { snapshot := { temperature := none, weatherIcon := "🌤️", wind := 13,
                                humidity := 80, feelsLike := none },
                  cityName := "Paris", hourlyList := [] } := by
  refine ⟨by decide, ?_⟩
  unfold displayWeather
  exact congrArg Except.ok (by decide!)

/-! ## C8: notifications -/

/-- C8: for a day index other than 0 `checkWeatherAlerts` calls `sendWeatherNotification`
not at all, so no notification is created whatever the permission and the browser; for day 0
its calls of type `rain` are one call when `rainAlert` is true and none otherwise, its calls
of type `temp` are one call when `tempAlert` is true and none otherwise, and it makes no
other call. -/
theorem checkWeatherAlerts_notifies_today_only (data : Payload) (cityName : String)
    (dayIndex : Nat) (granted constructorThrows : Bool) :
    checkWeatherAlerts data cityName (dayIndex + 1) = [] ∧
    dispatched granted constructorThrows data cityName (dayIndex + 1) = [] ∧
    (checkWeatherAlerts data cityName 0).filter (fun call => call.type == "rain") =
      (if (scanAlerts data.hourly 0).rainAlert = true then
        [{ city := cityName, message := rainMessage (scanAlerts data.hourly 0).rainHour,
           type := "rain" }]
       else []) ∧
    (checkWeatherAlerts data cityName 0).filter (fun call => call.type == "temp") =
      (if (scanAlerts data.hourly 0).tempAlert = true then
        [{ city := cityName, message := tempMessage (scanAlerts data.hourly 0).highTemp,
           type := "temp" }]
       else []) ∧
    (∀ call ∈ checkWeatherAlerts data cityName 0, call.type = "rain" ∨ call.type = "temp") := by
  refine ⟨?_, ?_, ?_, ?_, ?_⟩
  · simp [checkWeatherAlerts]
  · simp [dispatched, checkWeatherAlerts]
  · simp only [checkWeatherAlerts]
    generalize scanAlerts data.hourly 0 = s
    obtain ⟨ra, ta, rh, th⟩ := s
    cases ra <;> cases ta <;> simp
  · simp only [checkWeatherAlerts]
    generalize scanAlerts data.hourly 0 = s
    obtain ⟨ra, ta, rh, th⟩ := s
    cases ra <;> cases ta <;> simp
  · simp only [checkWeatherAlerts]
    generalize scanAlerts data.hourly 0 = s
    obtain ⟨ra, ta, rh, th⟩ := s
    cases ra <;> cases ta <;> simp

/-! ## C9: `getWeatherEmoji` -/

theorem weatherEmojis_nonempty : ∀ p ∈ weatherEmojis, p.2 ≠ "" := by decide

theorem weatherEmojis_keys_nodup : (weatherEmojis.map Prod.fst).Nodup := by decide

theorem lookup_of_mem_of_nodup {l : List (Int × String)} (hn : (l.map Prod.fst).Nodup)
    {k : Int} {e : String} (h : (k, e) ∈ l) : l.lookup k = some e := by
  induction l with
  | nil => cases h
  | cons p l ih =>
    obtain ⟨k1, e1⟩ := p
    simp only [List.map_cons, List.nodup_cons] at hn
    rcases List.mem_cons.mp h with h1 | h1
    · cases h1
      simp [List.lookup]
    · have hne : k ≠ k1 := by
        intro hk
        apply hn.1
        rw [← hk]
        exact List.mem_map.mpr ⟨(k, e), h1, rfl⟩
      rw [List.lookup_cons]
      have : (k == k1) = false := by simpa using hne
      rw [this]
      exact ih hn.2 h1

/-- C9: `getWeatherEmoji` returns a non-empty string for every integer code: the table entry
when the code is a key of the table, and the default emoji when it is not. -/
theorem getWeatherEmoji_total (code : Int) :
    (∀ e, (code, e) ∈ weatherEmojis → getWeatherEmoji (some code) = e) ∧
    (code ∉ weatherEmojis.map Prod.fst → getWeatherEmoji (some code) = "🌤️") ∧
    getWeatherEmoji (some code) ≠ "" ∧
    getWeatherEmoji (some 0) = "☀️" ∧ getWeatherEmoji (some 4) = "🌤️" ∧
    getWeatherEmoji (some (-1)) = "🌤️" := by
  have hkey : ∀ e, (code, e) ∈ weatherEmojis → getWeatherEmoji (some code) = e := by
    intro e he
    have hl := lookup_of_mem_of_nodup weatherEmojis_keys_nodup he
    have hne := weatherEmojis_nonempty _ he
    simp only [getWeatherEmoji, hl, jsOr]
    exact if_neg hne
  have hno : code ∉ weatherEmojis.map Prod.fst → getWeatherEmoji (some code) = "🌤️" := by
    intro hk
    have hl : weatherEmojis.lookup code = none := by
      rw [List.lookup_eq_none_iff]
      intro p hp
      have hne : code ≠ p.1 := by
        intro hpc
        exact hk (List.mem_map.mpr ⟨p, hp, hpc.symm⟩)
      simpa using hne
    simp only [getWeatherEmoji, hl, jsOr]
  refine ⟨hkey, hno, ?_, by decide, by decide, by decide⟩
  by_cases hk : code ∈ weatherEmojis.map Prod.fst
  · obtain ⟨p, hp, hpc⟩ := List.mem_map.mp hk
    obtain ⟨k, e⟩ := p
    simp only at hpc
    subst hpc
    rw [hkey e hp]
    exact weatherEmojis_nonempty _ hp
  · rw [hno hk]
    decide

/-! ## C10: uniqueness of favorite names -/

theorem names_filter_nodup (l : List City) (p : City → Bool) (h : (names l).Nodup) :
    (names (l.filter p)).Nodup :=
  List.Nodup.sublist (List.Sublist.map City.name (List.filter_sublist l)) h

theorem findIndex_neg_iff (l : List City) (p : City → Bool) :
    ¬ (findIndex l p ≥ 0) ↔ ∀ x ∈ l, p x = false := by
  unfold findIndex
  cases h : l.findIdx? p with
  | none =>
    simp only [ge_iff_le, Int.reduceNeg, Left.nonneg_neg_iff, Int.reduceLE, not_false_eq_true,
      true_iff]
    exact List.findIdx?_eq_none_iff.mp h
  | some i =>
    have hne : l.findIdx? p ≠ none := by rw [h]; simp
    rw [Ne, List.findIdx?_eq_none_iff] at hne
    simp only [ge_iff_le, Int.ofNat_zero_le, not_true_eq_false, false_iff]
    exact hne

/-- C10: if no two favorites share a name, the same holds of the list left by
`handleFavoriteToggle`, whatever the current city, and of the list left by the remove
handler, whatever the name; the list written to storage, when one is written, is that list. -/
theorem favorites_names_unique (st : FavState) (currentCity : Option City) (name : String)
    (h : (names st.favorites).Nodup) :
    (names (handleFavoriteToggle st currentCity).favorites).Nodup ∧
    ((handleFavoriteToggle st currentCity).stored = st.stored ∨
      (handleFavoriteToggle st currentCity).stored =
        some (handleFavoriteToggle st currentCity).favorites) ∧
    (names (removeFavorite st name).favorites).Nodup ∧
    (removeFavorite st name).stored = some (removeFavorite st name).favorites := by
  refine ⟨?_, ?_, ?_, rfl⟩
  · cases currentCity with
    | none => exact h
    | some city =>
      unfold handleFavoriteToggle
      by_cases hidx : findIndex st.favorites (fun f => f.name == city.name) ≥ 0
      · simp only [hidx, if_true, saveFavorites]
        exact names_filter_nodup _ _ h
      · simp only [hidx, if_false, saveFavorites]
        have habs := (findIndex_neg_iff _ _).mp hidx
        unfold names
        rw [List.map_append, List.nodup_append]
        refine ⟨h, by simp, ?_⟩
        intro a ha hb
        simp only [List.map_cons, List.map_nil, List.mem_singleton] at hb
        obtain ⟨x, hx, hxa⟩ := List.mem_map.mp ha
        have := habs x hx
        simp only [beq_eq_false_iff_ne, ne_eq] at this
        exact this (hxa.trans hb)
  · cases currentCity with
    | none => exact Or.inl rfl
    | some city =>
      right
      unfold handleFavoriteToggle
      by_cases hidx : findIndex st.favorites (fun f => f.name == city.name) ≥ 0
      · simp only [hidx, if_true, saveFavorites]
      · simp only [hidx, if_false, saveFavorites]
  · exact names_filter_nodup _ _ h

/-- C10 (witness): toggling Lyon, and removing Paris, from the favorites Paris, Lyon. -/
theorem favorites_names_unique_witness :
    (names sampleFavorites.favorites).Nodup ∧
    ((names (handleFavoriteToggle sampleFavorites
        (some { name := "Lyon", lat := 0, lon := 0 })).favorites).Nodup ∧
    ((handleFavoriteToggle sampleFavorites
        (some { name := "Lyon", lat := 0, lon := 0 })).stored = sampleFavorites.stored ∨
      (handleFavoriteToggle sampleFavorites
        (some { name := "Lyon", lat := 0, lon := 0 })).stored =
        some (handleFavoriteToggle sampleFavorites
          (some { name := "Lyon", lat := 0, lon := 0 })).favorites) ∧
    (names (removeFavorite sampleFavorites "Paris").favorites).Nodup ∧
    (removeFavorite sampleFavorites "Paris").stored =
      some (removeFavorite sampleFavorites "Paris").favorites) :=
  ⟨by decide, favorites_names_unique sampleFavorites
    (some { name := "Lyon", lat := 0, lon := 0 }) "Paris" (by decide)⟩

/-! ## C11: the fixed payload shape -/

theorem offeredDays_eq (data : Payload) (currentDayIndex : Nat) :
    offeredDays data currentDayIndex = [0, 1, 2, 3, 4, 5, 6] := by
  simp [offeredDays, renderDaySelector, FORECAST_DAYS, List.range, List.range.loop, dayButtonStep]

/-- C11: when each hourly array has `FORECAST_DAYS * 24 = 168` entries, the day selector
offers exactly the indices 0..6, and for each of them the midday index `dayIndex * 24 + 12`
is in range, the four hours of the alert scan are in range, and the hourly list for each of
the window lengths 4, 8 and 12 has exactly that many items. -/
theorem week_shape_sufficient (data : Payload) (currentDayIndex : Nat)
    (htime : data.hourly.time.length = FORECAST_DAYS * 24)
    (htemp : data.hourly.temperature_2m.length = FORECAST_DAYS * 24)
    (hcode : data.hourly.weather_code.length = FORECAST_DAYS * 24) :
    FORECAST_DAYS * 24 = 168 ∧
    offeredDays data currentDayIndex = [0, 1, 2, 3, 4, 5, 6] ∧
    ∀ dayIndex ∈ offeredDays data currentDayIndex,
      (dayIndex * 24 + 12 < data.hourly.time.length ∧
        dayIndex * 24 + 12 < data.hourly.temperature_2m.length ∧
        dayIndex * 24 + 12 < data.hourly.weather_code.length) ∧
      (∀ i, i < 4 →
        dayIndex * 24 + i < data.hourly.time.length ∧
        dayIndex * 24 + i < data.hourly.temperature_2m.length ∧
        dayIndex * 24 + i < data.hourly.weather_code.length) ∧
      ∀ hours ∈ [4, 8, 12],
        (renderHourlyForecast data.hourly (dayIndex * 24) hours).length = hours := by
  have h168 : FORECAST_DAYS * 24 = 168 := rfl
  refine ⟨h168, offeredDays_eq data currentDayIndex, ?_⟩
  intro dayIndex hmem
  rw [offeredDays_eq] at hmem
  have hd : dayIndex ≤ 6 := by
    simp only [List.mem_cons, List.mem_singleton, List.not_mem_nil, or_false] at hmem
    omega
  rw [htime, htemp, hcode, h168]
  refine ⟨by omega, fun i hi => by omega, ?_⟩
  intro hours hh
  rw [(renderHourlyForecast_spec data.hourly (dayIndex * 24) hours).1, htime, h168]
  simp only [List.mem_cons, List.mem_singleton, List.not_mem_nil, or_false] at hh
  omega

/-- C11 (witness): a payload with 168 entries in each hourly array. -/
theorem week_shape_sufficient_witness :
    (weekPayload.hourly.time.length = FORECAST_DAYS * 24 ∧
      weekPayload.hourly.temperature_2m.length = FORECAST_DAYS * 24 ∧
      weekPayload.hourly.weather_code.length = FORECAST_DAYS * 24) ∧
    (FORECAST_DAYS * 24 = 168 ∧
    offeredDays weekPayload 0 = [0, 1, 2, 3, 4, 5, 6] ∧
    ∀ dayIndex ∈ offeredDays weekPayload 0,
      (dayIndex * 24 + 12 < weekPayload.hourly.time.length ∧
        dayIndex * 24 + 12 < weekPayload.hourly.temperature_2m.length ∧
        dayIndex * 24 + 12 < weekPayload.hourly.weather_code.length) ∧
      (∀ i, i < 4 →
        dayIndex * 24 + i < weekPayload.hourly.time.length ∧
        dayIndex * 24 + i < weekPayload.hourly.temperature_2m.length ∧
        dayIndex * 24 + i < weekPayload.hourly.weather_code.length) ∧
      ∀ hours ∈ [4, 8, 12],
        (renderHourlyForecast weekPayload.hourly (dayIndex * 24) hours).length = hours) :=
  ⟨⟨List.length_replicate _ _, List.length_replicate _ _, List.length_replicate _ _⟩,
    week_shape_sufficient weekPayload 0 (List.length_replicate _ _)
      (List.length_replicate _ _) (List.length_replicate _ _)⟩

/-! ## C12: consistency of the alert scan -/

/-- C12: after the scan of `checkWeatherAlerts`, `rainAlert` is true exactly when `rainHour`
is not `null`, and `rainHour` is then between 1 and 4; `tempAlert` is true exactly when
`highTemp` is not `null`; and when the day start index is at or past the end of the hourly
series both alerts are false and both details are `null`. -/
theorem scanAlerts_consistent (hourly : Hourly) (dayIndex : Nat) :
    ((scanAlerts hourly dayIndex).rainAlert = true ↔
        (scanAlerts hourly dayIndex).rainHour ≠ none) ∧
    (∀ k, (scanAlerts hourly dayIndex).rainHour = some k → 1 ≤ k ∧ k ≤ 4) ∧
    ((scanAlerts hourly dayIndex).tempAlert = true ↔
        (scanAlerts hourly dayIndex).highTemp ≠ none) ∧
    (hourly.time.length ≤ dayIndex * 24 →
        (scanAlerts hourly dayIndex).rainAlert = false ∧
        (scanAlerts hourly dayIndex).tempAlert = false ∧
        (scanAlerts hourly dayIndex).rainHour = none ∧
        (scanAlerts hourly dayIndex).highTemp = none) := by
  obtain ⟨rf, rt⟩ := alertLoop_rain hourly (dayIndex * 24) 4
  obtain ⟨tf, tt⟩ := alertLoop_temp hourly (dayIndex * 24) 4
  unfold scanAlerts
  refine ⟨?_, ?_, ?_, ?_⟩
  · cases hb : (alertLoop hourly (dayIndex * 24) 4).rainAlert with
    | false => simp [(rf hb).1]
    | true =>
      obtain ⟨i, -, -, hv, -⟩ := rt hb
      simp [hv]
  · intro k hk
    cases hb : (alertLoop hourly (dayIndex * 24) 4).rainAlert with
    | false => rw [(rf hb).1] at hk; cases hk
    | true =>
      obtain ⟨i, hi, -, hv, -⟩ := rt hb
      rw [hv] at hk
      have := Option.some.inj hk
      omega
  · cases hb : (alertLoop hourly (dayIndex * 24) 4).tempAlert with
    | false => simp [(tf hb).1]
    | true =>
      obtain ⟨i, -, ⟨t, ht⟩, hv, -⟩ := tt hb
      rw [hv, ht.2.1]
      simp [mathRound]
  · intro hlen
    have hr : (alertLoop hourly (dayIndex * 24) 4).rainAlert = false := by
      cases hb : (alertLoop hourly (dayIndex * 24) 4).rainAlert with
      | false => rfl
      | true =>
        obtain ⟨i, -, hat, -, -⟩ := rt hb
        have := hat.1
        omega
    have ht : (alertLoop hourly (dayIndex * 24) 4).tempAlert = false := by
      cases hb : (alertLoop hourly (dayIndex * 24) 4).tempAlert with
      | false => rfl
      | true =>
        obtain ⟨i, -, ⟨t, hat⟩, -, -⟩ := tt hb
        have := hat.1
        omega
    exact ⟨hr, ht, (rf hr).1, (tf ht).1⟩

/-! ## C13: the favorite toggle -/

theorem mem_names_iff (l : List City) (n : String) :
    n ∈ names l ↔ ∃ x ∈ l, x.name = n := by
  simp [names]

theorem handleFavoriteToggle_present (st : FavState) (city : City)
    (h : findIndex st.favorites (fun f => f.name == city.name) ≥ 0) :
    handleFavoriteToggle st (some city) =
      saveFavorites st (st.favorites.filter (fun f => f.name != city.name)) := by
  simp [handleFavoriteToggle, h]

theorem handleFavoriteToggle_absent (st : FavState) (city : City)
    (h : ¬ findIndex st.favorites (fun f => f.name == city.name) ≥ 0) :
    handleFavoriteToggle st (some city) = saveFavorites st (st.favorites ++ [city]) := by
  simp only [handleFavoriteToggle, if_neg h]

/-- C13: for a non-null current city, `handleFavoriteToggle` flips the membership of the
city's name in the favorites, keeps the entries with another name in their order, appends
the city as last entry when its name was absent, removes every entry with that name when it
was present, and saves the resulting list. -/
theorem handleFavoriteToggle_flips (st : FavState) (city : City) :
    (city.name ∈ names (handleFavoriteToggle st (some city)).favorites ↔
        city.name ∉ names st.favorites) ∧
    (handleFavoriteToggle st (some city)).favorites.filter (fun f => f.name != city.name) =
        st.favorites.filter (fun f => f.name != city.name) ∧
    (city.name ∉ names st.favorites →
        (handleFavoriteToggle st (some city)).favorites = st.favorites ++ [city]) ∧
    (city.name ∈ names st.favorites →
        (handleFavoriteToggle st (some city)).favorites =
          st.favorites.filter (fun f => f.name != city.name) ∧
        ∀ f ∈ (handleFavoriteToggle st (some city)).favorites, f.name ≠ city.name) ∧
    (handleFavoriteToggle st (some city)).stored =
        some (handleFavoriteToggle st (some city)).favorites := by
  by_cases hidx : findIndex st.favorites (fun f => f.name == city.name) ≥ 0
  · have hin : city.name ∈ names st.favorites := by
      by_contra hnot
      apply (findIndex_neg_iff st.favorites (fun f => f.name == city.name)).mpr _ hidx
      intro x hx
      have : x.name ≠ city.name := fun h => hnot ((mem_names_iff _ _).mpr ⟨x, hx, h⟩)
      simpa using this
    rw [handleFavoriteToggle_present st city hidx]
    have hfav : (saveFavorites st (st.favorites.filter (fun f => f.name != city.name))).favorites
        = st.favorites.filter (fun f => f.name != city.name) := rfl
    rw [hfav]
    refine ⟨?_, ?_, ?_, ?_, rfl⟩
    · constructor
      · intro h
        obtain ⟨x, hx, hxn⟩ := (mem_names_iff _ _).mp h
        have := (List.mem_filter.mp hx).2
        simp only [bne_iff_ne, ne_eq] at this
        exact absurd hxn this
      · intro h; exact absurd hin h
    · simp
    · intro h; exact absurd hin h
    · intro _
      refine ⟨rfl, ?_⟩
      intro f hf
      simpa using (List.mem_filter.mp hf).2
  · have habs := (findIndex_neg_iff _ _).mp hidx
    have hnot : city.name ∉ names st.favorites := by
      intro hin
      obtain ⟨x, hx, hxn⟩ := (mem_names_iff _ _).mp hin
      have := habs x hx
      simp only [beq_eq_false_iff_ne, ne_eq] at this
      exact this hxn
    rw [handleFavoriteToggle_absent st city hidx]
    have hfav : (saveFavorites st (st.favorites ++ [city])).favorites = st.favorites ++ [city] :=
      rfl
    rw [hfav]
    refine ⟨?_, ?_, ?_, ?_, rfl⟩
    · constructor
      · intro _; exact hnot
      · intro _
        exact (mem_names_iff _ _).mpr ⟨city, by simp, rfl⟩
    · simp
    · intro _; rfl
    · intro h; exact absurd h hnot

end AppMobMeteo
